import Mathlib

/-!
Verification of the ox_task job-orchestration core against its
natural-language specification.  The Python sources under
`src/ox_task/` are shallowly embedded as executable Lean functions:

* strings are `String` (or `List Char` where character-level reasoning
  is needed, as for `comm_utils.shorten_msg`),
* Python dicts holding heterogeneous result values are association
  lists over a small value type `DVal`; a dict update is modelled by
  prepending the new binding, with first-match lookup, which is
  observationally the same as in-place replacement,
* external effects (subprocess calls, venv/pip installs, notifier
  deliveries) are supplied by a `World` record of oracle functions,
* Python exceptions are `Except PyExc`.
-/

namespace OxTask

/-- Single-quote character, kept out of string literals. -/
def sq : String := String.mk ['\x27']

/-- Backtick character (used by the template engine's command syntax). -/
def btick : Char := '\x60'

/-! ## Association lists (Python dict with string keys) -/

/-- First-match lookup in an association list. -/
def alookup {α : Type} : List (String × α) → String → Option α
  | [], _ => none
  | (k, v) :: rest, key => if k = key then some v else alookup rest key

/-- Environment-variable maps: `d[k] = v` is modelled by prepending,
which shadows any older binding under first-match lookup. -/
def envSet (d : List (String × String)) (k v : String) : List (String × String) :=
  (k, v) :: d

abbrev EnvMap := List (String × String)

/-! ## Python-style string helpers -/

/-- Whitespace in the sense of Python `str.split()` / `str.strip()`. -/
def pyIsSpace (c : Char) : Bool :=
  c = ' ' || c = '\t' || c = '\n' || c = '\r' || c = '\x0b' || c = '\x0c'

/-- Helper for `pySplit`: accumulate the current token (in reverse). -/
def pySplitAux : List Char → List Char → List String
  | [], acc => if acc.isEmpty then [] else [String.mk acc.reverse]
  | c :: rest, acc =>
    if pyIsSpace c then
      if acc.isEmpty then pySplitAux rest []
      else String.mk acc.reverse :: pySplitAux rest []
    else pySplitAux rest (c :: acc)

/-- Python `str.split()` with no arguments: split on runs of whitespace,
discarding empty pieces. -/
def pySplit (s : String) : List String := pySplitAux s.toList []

/-- Python `str.strip()`: remove leading and trailing whitespace. -/
def pyStrip (s : String) : String :=
  String.mk (((s.toList.dropWhile pyIsSpace).reverse.dropWhile pyIsSpace).reverse)

/-! ## `string.Template.safe_substitute`

Python's `Template` replaces `$name` and `$\x7bname\x7d` references
(identifier = `[_A-Za-z][_A-Za-z0-9]*`), turns `$$` into `$`, and in
`safe_substitute` leaves unknown references and malformed delimiters
untouched.  The scanner below is fuelled; each step consumes at least
one character, so fuel `length + 1` always suffices. -/

def isIdStart (c : Char) : Bool := c.isAlpha || c = '_'

def isIdChar (c : Char) : Bool := c.isAlphanum || c = '_'

/-- Read a maximal identifier run (first character already validated). -/
def readIdent (l : List Char) : List Char × List Char :=
  (l.takeWhile isIdChar, l.dropWhile isIdChar)

/-- Parse the body of a braced reference: identifier followed by a
closing brace.  Returns the identifier and the remainder after the
brace, or `none` when malformed. -/
def readBraced (l : List Char) : Option (List Char × List Char) :=
  match l with
  | [] => none
  | c :: rest =>
    if isIdStart c then
      match (rest.takeWhile isIdChar, rest.dropWhile isIdChar) with
      | (ids, after) =>
        match after with
        | d :: a2 => if d = '\x7d' then some (c :: ids, a2) else none
        | [] => none
    else none

def substF (env : EnvMap) : Nat → List Char → List Char
  | 0, l => l
  | _ + 1, [] => []
  | fuel + 1, c :: rest =>
    if c = '$' then
      match rest with
      | [] => ['$']
      | d :: r2 =>
        if d = '$' then '$' :: substF env fuel r2
        else if d = '\x7b' then
          match readBraced r2 with
          | some (ids, after) =>
            match alookup env (String.mk ids) with
            | some v => v.toList ++ substF env fuel after
            | none => '$' :: '\x7b' :: (ids ++ ('\x7d' :: substF env fuel after))
          | none => '$' :: substF env fuel rest
        else if isIdStart d then
          match readIdent (d :: r2) with
          | (ids, after) =>
            match alookup env (String.mk ids) with
            | some v => v.toList ++ substF env fuel after
            | none => '$' :: (ids ++ substF env fuel after)
        else '$' :: substF env fuel rest
    else c :: substF env fuel rest

/-- `Template(value).safe_substitute(env)`. -/
def safe_substitute (s : String) (env : EnvMap) : String :=
  String.mk (substF env (s.toList.length + 1) s.toList)

/-! ## `comm_utils.shorten_msg`

Modelled on `List Char` so that the character/line truncations can be
reasoned about directly. -/

/-- Python `msg.split(backslash-n)`: always returns at least one piece;
the empty string yields one empty piece. -/
def splitNL : List Char → List (List Char)
  | [] => [[]]
  | c :: rest =>
    match splitNL rest with
    | [] => [[]]
    | l :: ls => if c = '\n' then [] :: l :: ls else (c :: l) :: ls

/-- Python `(backslash-n).join(pieces)`. -/
def joinNL : List (List Char) → List Char
  | [] => []
  | [x] => x
  | x :: y :: rest => x ++ '\n' :: joinNL (y :: rest)

/-- Number of newline-separated lines a string contains, with the
convention that the empty string contains none. -/
def numLines (msg : List Char) : Nat :=
  if msg = [] then 0 else (splitNL msg).length

/-- `comm_utils.shorten_msg`: truncate to `max_len` characters, then to
`max_lines` lines, and append an ellipsis when that changed the string. -/
def shorten_msg (msg : List Char) (max_len : Nat) (max_lines : Nat) :
    List Char :=
  let s1 := msg.take max_len
  let s2 := joinNL ((splitNL s1).take max_lines)
  if s2 = msg then s2 else s2 ++ ['.', '.', '.']

/-! ## Task plan data model (`core/models.py`)

Pydantic models become plain structures; the `Dict[str, ...]`
collections become insertion-ordered association lists. -/

/-- Value of an extra keyword field on a `TaskNote` (`extra = "allow"`);
only the string/non-string distinction is observable (templates are
applied to string values only). -/
inductive NoteVal
  | vstr (s : String)
  | vother
  deriving DecidableEq

structure TaskEnv where
  runtime : Option String
  requirements : Option (List String)
  path : Option String
  vars : List (String × String)
  deriving DecidableEq

structure TaskNote where
  class_name : String
  extra : List (String × NoteVal)
  deriving DecidableEq

/-- `note_config.model_dump()`: the declared field plus the extras. -/
def TaskNote.model_dump (n : TaskNote) : List (String × NoteVal) :=
  ("class_name", NoteVal.vstr n.class_name) :: n.extra

/-- A job command: `Union[str, List[str]]`. -/
inductive PyCmd
  | str (s : String)
  | list (l : List String)
  deriving DecidableEq

structure TaskJob where
  env : String
  note : String
  command : PyCmd
  timeout : Int
  shell : Bool
  deriving DecidableEq

structure TaskPlan where
  envs : List (String × TaskEnv)
  notes : List (String × TaskNote)
  jobs : List (String × TaskJob)
  deriving DecidableEq

/-! ## Python exceptions -/

inductive PyExc
  | valueError (msg : String)
  | keyError (key : String)
  | calledProcessError (cmd : PyCmd) (rc : Int)
  | nameError (name : String)
  deriving DecidableEq

def pyCmdStr : PyCmd → String
  | PyCmd.str s => s
  | PyCmd.list l => "[" ++ String.intercalate ", " (l.map (fun s => sq ++ s ++ sq)) ++ "]"

/-- Python `str(exception)`.  (`CalledProcessError` is rendered in its
non-signal format; no claim depends on the negative-returncode form.) -/
def pyStr : PyExc → String
  | PyExc.valueError m => m
  | PyExc.keyError k => sq ++ k ++ sq
  | PyExc.calledProcessError cmd rc =>
    "Command " ++ sq ++ pyCmdStr cmd ++ sq ++ " returned non-zero exit status "
      ++ toString rc ++ "."
  | PyExc.nameError n => "name " ++ sq ++ n ++ sq ++ " is not defined"

/-! ## Job-result dictionaries

The `job_results` dict of `cli.py` holds strings, integers and string
lists.  An update is modelled by prepending (first-match lookup). -/

inductive DVal
  | str (s : String)
  | int (v : Int)
  | list (l : List String)
  deriving DecidableEq

abbrev ODict := List (String × DVal)

def dSet (d : ODict) (k : String) (v : DVal) : ODict := (k, v) :: d

def dGet (d : ODict) (k : String) : Option DVal := alookup d k

def dHas (d : ODict) (k : String) : Bool := (alookup d k).isSome

def dGetD (d : ODict) (k : String) (dflt : DVal) : DVal := (alookup d k).getD dflt

/-- `job_results['exit_code']`; the key is set on every path of
`cli.py`, so the catch-all branch is unreachable. -/
def exitCodeOf (d : ODict) : Int :=
  match dGet d "exit_code" with
  | some (DVal.int v) => v
  | _ => 0

/-! ## Notifier registry (`core/finders.py`, `core/noters.py`) -/

/-- A module attribute of `core/noters.py`, as `getattr(noters, name)`
can return it: the notifier classes, the base class, the stray
module-level `notify` function, and the imported modules.  `custom`
stands for values produced by externally registered lookup functors. -/
inductive NoterAttr
  | noterBase
  | notifyFn
  | telegramNotifier
  | gmailNotifier
  | fileNotifier
  | loggingMod
  | requestsMod
  | commUtilsMod
  | custom (tag : String)
  deriving DecidableEq

/-- `FindBuiltinNoter.lookup`: `getattr(noters, name, None)` over the
attribute table of `core/noters.py` (dunder attributes omitted). -/
def findBuiltinNoter (name : String) : Option NoterAttr :=
  if name = "Noter" then some NoterAttr.noterBase
  else if name = "notify" then some NoterAttr.notifyFn
  else if name = "TelegramNotifier" then some NoterAttr.telegramNotifier
  else if name = "GmailNotifier" then some NoterAttr.gmailNotifier
  else if name = "FileNotifier" then some NoterAttr.fileNotifier
  else if name = "logging" then some NoterAttr.loggingMod
  else if name = "requests" then some NoterAttr.requestsMod
  else if name = "comm_utils" then some NoterAttr.commUtilsMod
  else none

/-- `TaskNoteFinder._lookup_funcs`: an insertion-ordered dict of lookup
functors, passed explicitly instead of living as class state. -/
abbrev Registry := List (String × (String → Option NoterAttr))

/-- The registry as initialised in `finders.py`: the builtin finder is
pre-registered under `__default__` and therefore consulted first. -/
def initRegistry : Registry := [("__default__", findBuiltinNoter)]

/-- `TaskNoteFinder.add_lookup_functor`.  (The `ValueError` message is
the literal source text: the f-string prefix is missing in the code.) -/
def add_lookup_functor (reg : Registry) (name : String)
    (functor : String → Option NoterAttr) : Except PyExc Registry :=
  if (alookup reg name).isSome then
    Except.error (PyExc.valueError "Lookup function \x7bname\x7d already exists.")
  else Except.ok (reg ++ [(name, functor)])

def firstFunctorMatch : Registry → String → Option NoterAttr
  | [], _ => none
  | (_, f) :: rest, name =>
    match f name with
    | some v => some v
    | none => firstFunctorMatch rest name

/-- `TaskNoteFinder.find_noter`: first non-null functor result in
insertion order, else `KeyError`. -/
def find_noter (reg : Registry) (name : String) : Except PyExc NoterAttr :=
  match firstFunctorMatch reg name with
  | some v => Except.ok v
  | none => Except.error (PyExc.keyError name)

/-! ## External effects -/

/-- Outcome of the `subprocess.run` call inside `run_shell_command`
(invoked with `shell=True, capture_output=True, text=True`). -/
structure ShellRes where
  rc : Int
  out : String
  err : String

/-- Outcome of the `subprocess.run` call inside `simple_run_command`:
normal completion, `TimeoutExpired` (whose partial streams may be
`None`), or any other exception. -/
inductive RunOutcome
  | completed (rc : Int) (out : String) (err : String)
  | timedOut (out : Option String) (err : Option String)
  | raised (msg : String)
  deriving DecidableEq

/-- Oracles for everything outside the orchestration core: venv
creation, pip installs, backtick shell commands, the job's own process,
and notifier construction-plus-delivery (`klass(**kwargs)` followed by
`my_noter.notify_result(job_results)`). -/
structure World where
  venv : String → String → Except PyExc Unit
  pip : String → String → Except PyExc Unit
  shell : String → EnvMap → ShellRes
  exec : List String → String → EnvMap → Bool → RunOutcome
  dispatch : NoterAttr → List (String × NoteVal) → ODict → Except PyExc Unit

/-! ## `core/shell_tools.py` -/

/-- `run_shell_command(command, env)` with the default `reraise=True`,
as the template engine calls it: `check=True` raises
`CalledProcessError` on a non-zero exit, which is re-raised. -/
def run_shell_command (w : World) (command : String) (env : EnvMap) :
    Except PyExc String :=
  let r := w.shell command env
  if r.rc = 0 then Except.ok (pyStrip r.out)
  else Except.error (PyExc.calledProcessError (PyCmd.str command) r.rc)

/-! ## `ui/cli.py` -/

/-- `simple_run_command`, specialised to how `run_job` calls it
(`capture_output=True, text=True`, a `cwd`).  The `error` entry of the
failed branch is `job_results.get('stderr', 'unknown')`; the `stderr`
key was set on the line before, so the `'unknown'` default is dead. -/
def simple_run_command (outcome : RunOutcome) (cwd : String)
    (command : List String) : ODict :=
  let jr : ODict := [("cwd", DVal.str cwd)]
  match outcome with
  | RunOutcome.completed rc out err =>
    let jr2 := dSet (dSet (dSet (dSet (dSet jr
      "status" (DVal.str (if rc = 0 then "success" else "failed")))
      "exit_code" (DVal.int rc)) "output" (DVal.str out))
      "stderr" (DVal.str err)) "command" (DVal.list command)
    if rc ≠ 0 ∧ dHas jr2 "error" = false then
      dSet jr2 "error" (dGetD jr2 "stderr" (DVal.str "unknown"))
    else jr2
  | RunOutcome.timedOut out err =>
    dSet (dSet (dSet (dSet (dSet (dSet jr
      "status" (DVal.str "timeout"))
      "exit_code" (DVal.int (-1))) "error" (DVal.str "Command timed out"))
      "output" (DVal.str (out.getD ""))) "stderr" (DVal.str (err.getD "")))
      "command" (DVal.list command)
  | RunOutcome.raised msg =>
    dSet (dSet (dSet (dSet (dSet (dSet jr
      "status" (DVal.str "error"))
      "exit_code" (DVal.int (-1))) "error" (DVal.str msg))
      "output" (DVal.str "")) "stderr" (DVal.str ""))
      "command" (DVal.list command)

/-- The loop body of `_prepare_environment_variables`. -/
def prepVars (w : World) : EnvMap → List (String × String) → Except PyExc EnvMap
  | ev, [] => Except.ok ev
  | ev, (name, value) :: rest =>
    if value.toList.head? = some btick ∧ value.toList.getLast? = some btick then
      match run_shell_command w (String.mk (value.toList.drop 1).dropLast) ev with
      | Except.error e => Except.error e
      | Except.ok v => prepVars w (envSet ev name v) rest
    else prepVars w (envSet ev name (safe_substitute value ev)) rest

/-- `_prepare_environment_variables`: seed the inherited process
environment (`base`) with `OX_TASK_JOB_NAME`, then resolve the declared
variables strictly in declaration order.  (The early return on an empty
`variables` dict coincides with folding over the empty list.) -/
def prepare_environment_variables (w : World) (base : EnvMap) (job_name : String)
    (env_config : TaskEnv) : Except PyExc EnvMap :=
  prepVars w (envSet base "OX_TASK_JOB_NAME" job_name) env_config.vars

/-- `_install_requirements`: each requirement a separate blocking step. -/
def installAll (w : World) (job_dir : String) : List String → Except PyExc Unit
  | [] => Except.ok ()
  | r :: rest =>
    match w.pip job_dir r with
    | Except.error e => Except.error e
    | Except.ok _ => installAll w job_dir rest

/-- `setup_job_environment`.  The filesystem is the set of existing
sandbox directories; `os.makedirs` prepends.  POSIX paths assumed
(`os.name != "nt"`), matching the rest of the embedding. -/
def setup_job_environment (w : World) (fs : List String)
    (working_dir job_name : String) (task_plan : TaskPlan) (env_name : String) :
    List String × Except PyExc String :=
  let job_dir := working_dir ++ "/" ++ job_name
  if fs.contains job_dir then (fs, Except.ok job_dir)
  else
    let fs2 := job_dir :: fs
    match alookup task_plan.envs env_name with
    | none =>
      (fs2, Except.error (PyExc.valueError
        ("Environment " ++ sq ++ env_name ++ sq ++ " not found in task plan")))
    | some env_config =>
      match w.venv job_dir (env_config.runtime.getD "python3") with
      | Except.error e => (fs2, Except.error e)
      | Except.ok _ =>
        match env_config.requirements with
        | none => (fs2, Except.ok job_dir)
        | some reqs =>
          if reqs.isEmpty then (fs2, Except.ok job_dir)
          else
            match installAll w job_dir reqs with
            | Except.error e => (fs2, Except.error e)
            | Except.ok _ => (fs2, Except.ok job_dir)

/-- `notify_result`.  An empty noter name is falsy and routes to the
(nonexistent) `EchoNotifier` builtin; otherwise the named `TaskNote` is
fetched (`ValueError` if absent), its class resolved via the finder, and
its keyword configuration template-substituted for string values. -/
def notify_result (w : World) (reg : Registry) (task_plan : TaskPlan)
    (noter_name : String) (job_results : ODict) (env_vars : EnvMap) :
    Except PyExc Unit :=
  if noter_name = "" then
    match find_noter reg "EchoNotifier" with
    | Except.error e => Except.error e
    | Except.ok klass => w.dispatch klass [] job_results
  else
    match alookup task_plan.notes noter_name with
    | none => Except.error (PyExc.valueError ("No TaskNote named " ++ noter_name))
    | some note_config =>
      match find_noter reg note_config.class_name with
      | Except.error e => Except.error e
      | Except.ok klass =>
        let kwargs := (TaskNote.model_dump note_config).map (fun kv =>
          match kv with
          | (k, NoteVal.vstr s) => (k, NoteVal.vstr (safe_substitute s env_vars))
          | (k, v) => (k, v))
        w.dispatch klass kwargs job_results

/-- The dict built by `run_job`'s `except` branch. -/
def exceptDict (e : PyExc) : ODict :=
  [("status", DVal.str "error"), ("exit_code", DVal.int (-1)),
   ("error", DVal.str (pyStr e)), ("output", DVal.str ""),
   ("stderr", DVal.str ""), ("command", DVal.list [])]

/-- The early-return dict for a job name absent from the plan (note:
it has no `command` key). -/
def missingJobDict (job_name : String) : ODict :=
  [("status", DVal.str "error"), ("exit_code", DVal.int (-1)),
   ("error", DVal.str ("Job " ++ sq ++ job_name ++ sq ++ " not found in task plan")),
   ("output", DVal.str ""), ("stderr", DVal.str "")]

/-- The `try:` block of `run_job`.  Returns the updated filesystem, the
`job_results` dict, the `env_vars` local as it stands when the block
exits (`{}` on any caught exception, since the only assignment is the
`_prepare_environment_variables` call), and the `command` local if it
was assigned by then (`none` means a bare `raise` would hit a
`NameError`). -/
def run_job_try (w : World) (base : EnvMap) (fs : List String)
    (working_dir : String) (task_plan : TaskPlan) (job_name : String)
    (job_config : TaskJob) :
    List String × ODict × EnvMap × Option (List String) :=
  match setup_job_environment w fs working_dir job_name task_plan job_config.env with
  | (fs2, Except.error e) => (fs2, exceptDict e, [], none)
  | (fs2, Except.ok job_dir) =>
    match alookup task_plan.envs job_config.env with
    | none => (fs2, exceptDict (PyExc.keyError job_config.env), [], none)
    | some env_config =>
      let command := match job_config.command with
        | PyCmd.str s => pySplit s
        | PyCmd.list l => l
      match prepare_environment_variables w base job_name env_config with
      | Except.error e => (fs2, exceptDict e, [], some command)
      | Except.ok ev =>
        let venv_bin := job_dir ++ "/venv/bin"
        let ev2 := envSet ev "PATH" (venv_bin ++ ":" ++ ((alookup ev "PATH").getD ""))
        let command2 := command.map (fun c => safe_substitute c ev2)
        let cmd_working_dir := match env_config.path with
          | some p => job_dir ++ "/" ++ p
          | none => job_dir
        let outcome := w.exec command2 cmd_working_dir ev2 job_config.shell
        (fs2, simple_run_command outcome cmd_working_dir command2, ev2, some command2)

/-- `run_job`.  After the `try`/`except`, `notify_result` is called
outside any handler (its exceptions propagate), and then a truthy
`exit_code` with `re_raise` raises `CalledProcessError` instead of
returning. -/
def run_job (w : World) (reg : Registry) (base : EnvMap) (fs : List String)
    (working_dir : String) (task_plan : TaskPlan) (job_name : String)
    (re_raise : Bool) : List String × Except PyExc ODict :=
  match alookup task_plan.jobs job_name with
  | none => (fs, Except.ok (missingJobDict job_name))
  | some job_config =>
    match run_job_try w base fs working_dir task_plan job_name job_config with
    | (fs2, job_results, env_vars, cmdLocal) =>
      match notify_result w reg task_plan job_config.note job_results env_vars with
      | Except.error e => (fs2, Except.error e)
      | Except.ok _ =>
        if exitCodeOf job_results ≠ 0 then
          if re_raise then
            match cmdLocal with
            | some cmd =>
              (fs2, Except.error
                (PyExc.calledProcessError (PyCmd.list cmd) (exitCodeOf job_results)))
            | none => (fs2, Except.error (PyExc.nameError "command"))
          else (fs2, Except.ok job_results)
        else (fs2, Except.ok job_results)

/-- The job loop of the `run` command: `all_results[job_name] =
run_job(...)` in plan declaration order; an uncaught exception from
`run_job` aborts the loop and no mapping is produced. -/
def run_all_go (w : World) (reg : Registry) (base : EnvMap)
    (working_dir : String) (plan : TaskPlan) (re_raise : Bool) :
    List String → List (String × TaskJob) →
    List String × Except PyExc (List (String × ODict))
  | fs, [] => (fs, Except.ok [])
  | fs, (name, _) :: rest =>
    match run_job w reg base fs working_dir plan name re_raise with
    | (fs2, Except.error e) => (fs2, Except.error e)
    | (fs2, Except.ok d) =>
      match run_all_go w reg base working_dir plan re_raise fs2 rest with
      | (fs3, Except.error e) => (fs3, Except.error e)
      | (fs3, Except.ok m) => (fs3, Except.ok ((name, d) :: m))

def run_all (w : World) (reg : Registry) (base : EnvMap) (fs : List String)
    (working_dir : String) (plan : TaskPlan) (re_raise : Bool) :
    List String × Except PyExc (List (String × ODict)) :=
  run_all_go w reg base working_dir plan re_raise fs plan.jobs

/-! ## Loading a task plan (`_parse_task_plan_file` / pydantic validation)

A raw task-plan document (JSON object or Python module dict) is a tree
of `RawVal`s; `TaskPlan(**task_data)` validates it against the pydantic
field declarations of `core/models.py`: a field with no default is
required, extra keys are ignored (default pydantic config). -/

inductive RawVal
  | rstr (s : String)
  | rlist (l : List String)
  | rint (n : Int)
  | rbool (b : Bool)
  | rdict (d : List (String × String))
  deriving DecidableEq

def reqStrField (d : List (String × RawVal)) (k : String) : Except String String :=
  match alookup d k with
  | some (RawVal.rstr s) => Except.ok s
  | some _ => Except.error ("string expected: " ++ k)
  | none => Except.error ("field required: " ++ k)

def optStrField (d : List (String × RawVal)) (k : String) :
    Except String (Option String) :=
  match alookup d k with
  | some (RawVal.rstr s) => Except.ok (some s)
  | some _ => Except.error ("string expected: " ++ k)
  | none => Except.ok none

def optStrListField (d : List (String × RawVal)) (k : String) :
    Except String (Option (List String)) :=
  match alookup d k with
  | some (RawVal.rlist l) => Except.ok (some l)
  | some _ => Except.error ("string list expected: " ++ k)
  | none => Except.ok none

def reqCmdField (d : List (String × RawVal)) (k : String) : Except String PyCmd :=
  match alookup d k with
  | some (RawVal.rstr s) => Except.ok (PyCmd.str s)
  | some (RawVal.rlist l) => Except.ok (PyCmd.list l)
  | some _ => Except.error ("string or string list expected: " ++ k)
  | none => Except.error ("field required: " ++ k)

def optIntField (d : List (String × RawVal)) (k : String) (dflt : Int) :
    Except String Int :=
  match alookup d k with
  | some (RawVal.rint n) => Except.ok n
  | some _ => Except.error ("number expected: " ++ k)
  | none => Except.ok dflt

def optBoolField (d : List (String × RawVal)) (k : String) (dflt : Bool) :
    Except String Bool :=
  match alookup d k with
  | some (RawVal.rbool b) => Except.ok b
  | some _ => Except.error ("boolean expected: " ++ k)
  | none => Except.ok dflt

/-- Validation of one `TaskJob`: `env`, `note` and `command` have no
default in `models.py` and are therefore required; `timeout` defaults
to 300 and `shell` to `False`; unknown keys are ignored. -/
def parseTaskJob (d : List (String × RawVal)) : Except String TaskJob := do
  let env ← reqStrField d "env"
  let note ← reqStrField d "note"
  let command ← reqCmdField d "command"
  let timeout ← optIntField d "timeout" 300
  let shell ← optBoolField d "shell" false
  Except.ok ⟨env, note, command, timeout, shell⟩

/-- Validation of one `TaskEnv`: every field optional, `variables`
defaulting to the empty dict. -/
def parseTaskEnv (d : List (String × RawVal)) : Except String TaskEnv := do
  let runtime ← optStrField d "runtime"
  let requirements ← optStrListField d "requirements"
  let path ← optStrField d "path"
  let vars := match alookup d "variables" with
    | some (RawVal.rdict m) => m
    | _ => []
  Except.ok ⟨runtime, requirements, path, vars⟩

def toNoteVal : RawVal → NoteVal
  | RawVal.rstr s => NoteVal.vstr s
  | _ => NoteVal.vother

/-- Validation of one `TaskNote`: `class_name` required, every other
key kept as an extra (`extra = "allow"`). -/
def parseTaskNote (d : List (String × RawVal)) : Except String TaskNote := do
  let cn ← reqStrField d "class_name"
  Except.ok ⟨cn, (d.filter (fun kv => kv.1 ≠ "class_name")).map
    (fun kv => (kv.1, toNoteVal kv.2))⟩

def parseEach {α : Type} (f : List (String × RawVal) → Except String α) :
    List (String × List (String × RawVal)) → Except String (List (String × α))
  | [] => Except.ok []
  | (name, d) :: rest =>
    match f d with
    | Except.error e => Except.error e
    | Except.ok v =>
      match parseEach f rest with
      | Except.error e => Except.error e
      | Except.ok m => Except.ok ((name, v) :: m)

/-- The three top-level collections handed to `TaskPlan(**task_data)`,
each already defaulted to an empty mapping by `_parse_task_plan_file`. -/
structure RawPlan where
  envs : List (String × List (String × RawVal))
  notes : List (String × List (String × RawVal))
  jobs : List (String × List (String × RawVal))

/-- `TaskPlan(**task_data)`. -/
def parseTaskPlan (rp : RawPlan) : Except String TaskPlan := do
  let envs ← parseEach parseTaskEnv rp.envs
  let notes ← parseEach parseTaskNote rp.notes
  let jobs ← parseEach parseTaskJob rp.jobs
  Except.ok ⟨envs, notes, jobs⟩

/-! ## Concrete scenarios used by the claim theorems -/

/-- An inherited process environment (defines only `PATH`). -/
def basePE : EnvMap := [("PATH", "/usr/bin")]

/-- Environment seed after inserting the synthetic job-name variable. -/
def evSeed : EnvMap := [("OX_TASK_JOB_NAME", "j1"), ("PATH", "/usr/bin")]

/-- An environment with no requirements and no variables. -/
def envPlain : TaskEnv := ⟨none, none, none, []⟩

/-- A file notifier configuration. -/
def noteFile : TaskNote := ⟨"FileNotifier", [("path", NoteVal.vstr "/tmp/x")]⟩

/-- Filesystem in which job `j1`'s sandbox under `/w` already exists. -/
def fsJ1 : List String := ["/w/j1"]

/-- A world whose oracles all succeed. -/
def okWorld : World :=
  ⟨fun _ _ => Except.ok (), fun _ _ => Except.ok (),
   fun _ _ => ⟨0, "", ""⟩, fun _ _ _ _ => RunOutcome.completed 0 "ok" "",
   fun _ _ _ => Except.ok ()⟩

/-- A world whose job execution exits with code 1. -/
def failWorld : World :=
  ⟨fun _ _ => Except.ok (), fun _ _ => Except.ok (),
   fun _ _ => ⟨0, "", ""⟩, fun _ _ _ _ => RunOutcome.completed 1 "" "boom",
   fun _ _ _ => Except.ok ()⟩

/-- A world whose backtick shell commands all yield the given result. -/
def mkBadWorld (rc : Int) (out err : String) : World :=
  ⟨fun _ _ => Except.ok (), fun _ _ => Except.ok (),
   fun _ _ => ⟨rc, out, err⟩, fun _ _ _ _ => RunOutcome.completed 0 "" "",
   fun _ _ _ => Except.ok ()⟩

/-- A job whose `note` names no `TaskNote` of the plan. -/
def jobC1 : TaskJob := ⟨"e1", "missing_note", PyCmd.list ["true"], 300, false⟩

def planC1 : TaskPlan := ⟨[("e1", envPlain)], [], [("j1", jobC1)]⟩

/-- A job with a valid notifier reference. -/
def jobC2 : TaskJob := ⟨"e1", "n1", PyCmd.list ["false"], 300, false⟩

def planC2 : TaskPlan := ⟨[("e1", envPlain)], [("n1", noteFile)], [("j1", jobC2)]⟩

/-- A job whose command is a shell-invocation string. -/
def mkJobC3 (s : String) (b : Bool) : TaskJob := ⟨"e1", "n1", PyCmd.str s, 300, b⟩

def envC3 : TaskEnv := ⟨none, none, none, [("V", "1")]⟩

def mkPlanC3 (s : String) (b : Bool) : TaskPlan :=
  ⟨[("e1", envC3)], [("n1", noteFile)], [("j1", mkJobC3 s b)]⟩

def mkWorldC3 (o : RunOutcome) : World :=
  ⟨fun _ _ => Except.ok (), fun _ _ => Except.ok (),
   fun _ _ => ⟨0, "", ""⟩, fun _ _ _ _ => o, fun _ _ _ => Except.ok ()⟩

/-- The `command` entry of a result, or `none` if the call raised. -/
def resultCommand (r : Except PyExc ODict) : Option DVal :=
  match r with
  | Except.ok d => dGet d "command"
  | Except.error _ => none

/-- The final resolved variable set of the C3 scenario. -/
def envFinalC3 : EnvMap :=
  [("PATH", "/w/j1/venv/bin:/usr/bin"), ("V", "1"),
   ("OX_TASK_JOB_NAME", "j1"), ("PATH", "/usr/bin")]

/-- A lookup functor that would resolve `FileNotifier` to a custom
implementation. -/
def customFinder : String → Option NoterAttr :=
  fun n => if n = "FileNotifier" then some (NoterAttr.custom "mine") else none

def regWithCustom : Registry := initRegistry ++ [("custom", customFinder)]

/-- Environments declaring `A` then `B` (and the reverse). -/
def envAB : TaskEnv := ⟨none, none, none, [("A", "1"), ("B", "$A-2")]⟩

def envBA : TaskEnv := ⟨none, none, none, [("B", "$A-2"), ("A", "1")]⟩

/-- Lookup into the successfully resolved variable set. -/
def envLook (r : Except PyExc EnvMap) (k : String) : Option String :=
  match r with
  | Except.ok ev => alookup ev k
  | Except.error _ => none

/-- An environment whose single variable is a backtick shell command. -/
def envBt : TaskEnv := ⟨none, none, none, [("V", "`badcmd`")]⟩

def jobC9 : TaskJob := ⟨"e1", "n1", PyCmd.list ["echo", "hi"], 300, false⟩

def planC9 : TaskPlan := ⟨[("e1", envBt)], [("n1", noteFile)], [("j1", jobC9)]⟩

/-- The raw job of the repository's own `test_missing_environment`
fixture: an `env`, a `command`, and no `note` key. -/
def c6RawJob : List (String × RawVal) :=
  [("env", RawVal.rstr "nonexistent_env"), ("command", RawVal.rlist ["echo", "test"])]

def c6RawPlan : RawPlan := ⟨[], [], [("test_job", c6RawJob)]⟩

/-- The result of `run_job` in the C2 witness scenario. -/
def dC2w : ODict :=
  match (run_job okWorld initRegistry basePE fsJ1 "/w" planC2 "j1" true).2 with
  | Except.ok d => d
  | Except.error _ => []

/-! ## Supporting lemmas -/

@[simp] theorem alookup_nil {α : Type} (key : String) :
    alookup ([] : List (String × α)) key = none := rfl

@[simp] theorem alookup_cons {α : Type} (k : String) (v : α) (rest : List (String × α))
    (key : String) :
    alookup ((k, v) :: rest) key = if k = key then some v else alookup rest key := rfl

theorem splitNL_ne_nil (l : List Char) : splitNL l ≠ [] := by
  cases l with
  | nil => simp [splitNL]
  | cons c rest =>
    simp only [splitNL]
    cases splitNL rest with
    | nil => simp
    | cons x xs =>
      by_cases h : c = '\n' <;> simp [h]

theorem joinNL_cons (x : List Char) (zs : List (List Char)) :
    joinNL (x :: zs) = x ++ (if zs = [] then [] else '\n' :: joinNL zs) := by
  cases zs with
  | nil => simp [joinNL]
  | cons y ys => simp [joinNL]

theorem joinNL_splitNL (l : List Char) : joinNL (splitNL l) = l := by
  induction l with
  | nil => simp [splitNL, joinNL]
  | cons c rest ih =>
    simp only [splitNL]
    cases hs : splitNL rest with
    | nil => exact absurd hs (splitNL_ne_nil rest)
    | cons x xs =>
      rw [hs] at ih
      by_cases h : c = '\n'
      · subst h
        simp only [if_pos rfl]
        cases xs with
        | nil => simp [joinNL] at ih ⊢; exact ih
        | cons y ys => simp [joinNL] at ih ⊢; exact ih
      · simp only [if_neg h]
        cases xs with
        | nil => simp [joinNL] at ih ⊢; exact ih
        | cons y ys => simp [joinNL] at ih ⊢; exact ih

/-- Joining a prefix of the pieces yields a prefix of joining them all. -/
theorem joinNL_take_append (ps : List (List Char)) :
    ∀ n : Nat, ∃ r, joinNL (ps.take n) ++ r = joinNL ps := by
  induction ps with
  | nil => intro n; exact ⟨[], by simp [joinNL]⟩
  | cons x ps' ih =>
    intro n
    cases n with
    | zero => exact ⟨joinNL (x :: ps'), by simp [joinNL]⟩
    | succ m =>
      rw [List.take_succ_cons, joinNL_cons, joinNL_cons]
      by_cases hps : ps' = []
      · subst hps
        exact ⟨[], by simp⟩
      · by_cases ht : ps'.take m = []
        · rw [ht]
          simp only [if_pos rfl, if_neg hps]
          exact ⟨'\n' :: joinNL ps', by simp⟩
        · rw [if_neg ht, if_neg hps]
          obtain ⟨r, hr⟩ := ih m
          exact ⟨r, by simp [← hr]⟩

theorem joinNL_take_length_le (ps : List (List Char)) (n : Nat) :
    (joinNL (ps.take n)).length ≤ (joinNL ps).length := by
  obtain ⟨r, hr⟩ := joinNL_take_append ps n
  calc (joinNL (ps.take n)).length ≤ (joinNL (ps.take n)).length + r.length := by omega
  _ = (joinNL (ps.take n) ++ r).length := by simp
  _ = (joinNL ps).length := by rw [hr]

theorem joinNL_ne_nil_of_two (x y : List Char) (zs : List (List Char)) :
    joinNL (x :: y :: zs) ≠ [] := by
  simp [joinNL]

/-- Dropping at least one piece of a nonempty join strictly shortens it. -/
theorem joinNL_take_length_lt (ps : List (List Char)) :
    ∀ n : Nat, n < ps.length → joinNL ps ≠ [] →
      (joinNL (ps.take n)).length < (joinNL ps).length := by
  induction ps with
  | nil => intro n hn _; simp at hn
  | cons x ps' ih =>
    intro n hn hne
    cases n with
    | zero =>
      simpa [joinNL] using List.length_pos.mpr hne
    | succ m =>
      have hm : m < ps'.length := by simpa using hn
      have hps : ps' ≠ [] := by
        intro h; subst h; simp at hm
      rw [List.take_succ_cons, joinNL_cons, joinNL_cons, if_neg hps]
      by_cases ht : ps'.take m = []
      · rw [ht]
        simp only [if_pos rfl]
        simp
      · rw [if_neg ht]
        have hm1 : 1 ≤ m := by
          by_contra h
          have : m = 0 := by omega
          subst this
          simp at ht
        have hlen2 : 2 ≤ ps'.length := by omega
        have hne' : joinNL ps' ≠ [] := by
          cases ps' with
          | nil => simp at hps
          | cons y ys =>
            cases ys with
            | nil => simp at hlen2
            | cons z zs => exact joinNL_ne_nil_of_two y z zs
        have := ih m hm hne'
        simp only [List.length_append, List.length_cons]
        omega

/-! ## Helper lemmas about the executor's result dictionary -/

theorem dGet_simple_run_command_command (o : RunOutcome) (cwd : String)
    (cmd : List String) :
    dGet (simple_run_command o cwd cmd) "command" = some (DVal.list cmd) := by
  cases o with
  | completed rc out err =>
    simp only [simple_run_command]
    split <;> split <;> rfl
  | timedOut out err => rfl
  | raised msg => rfl

theorem exitCodeOf_simple_run_command (o : RunOutcome) (cwd : String)
    (cmd : List String) :
    exitCodeOf (simple_run_command o cwd cmd)
      = match o with
        | RunOutcome.completed rc _ _ => rc
        | _ => (-1 : Int) := by
  cases o with
  | completed rc out err =>
    simp only [simple_run_command]
    split <;> split <;> rfl
  | timedOut out err => rfl
  | raised msg => rfl

/-- The four-character template reference `$A-2`: substitution is stuck
only on the surrounding environment's binding for `A`. -/
theorem substF_dollarA2 (env : EnvMap) :
    substF env 5 ['$', 'A', '-', '2']
      = match alookup env "A" with
        | some v => v.toList ++ ['-', '2']
        | none => ['$', 'A', '-', '2'] := rfl

/-- Claim C1: the spec says any notifier-dispatch failure is caught and
recorded as a non-fatal auxiliary field on the returned result.  In the
code, `run_job` calls `notify_result` outside the `try`/`except`, so a
dispatch failure (here: the job's `note` names no `TaskNote`) propagates
as an uncaught `ValueError` and no result is returned at all — even
though the job itself ran to a successful completion. -/
theorem C1_notifier_failure_propagates :
    run_job okWorld initRegistry basePE fsJ1 "/w" planC1 "j1" false
      = (fsJ1, Except.error (PyExc.valueError "No TaskNote named missing_note")) := rfl

/-- Claim C2 (counterexample): in strict mode a failing job makes
`run_job` raise `CalledProcessError` *instead of* returning, so the run
loop's name-to-result mapping is never produced — the claim that the
result is returned first and recorded is false. -/
theorem C2_strict_mode_loses_result :
    (run_all failWorld initRegistry basePE fsJ1 "/w" planC2 true).2
      = Except.error (PyExc.calledProcessError (PyCmd.list ["false"]) 1) := rfl

/-- Claim C2 (amended): when strict mode is requested, `run_job` never
returns a result with a non-zero exit code for a job that exists in the
plan — it raises before the `return` statement, so the caller's
bookkeeping cannot record the failed job's result.  (A *missing* job
still returns its error dict without raising, via the early return.) -/
theorem C2_strict_mode_raises_not_returns (w : World) (reg : Registry)
    (base : EnvMap) (fs : List String) (wd : String) (plan : TaskPlan)
    (jn : String) (jc : TaskJob) (fs2 : List String) (d : ODict)
    (hjob : alookup plan.jobs jn = some jc)
    (hrun : run_job w reg base fs wd plan jn true = (fs2, Except.ok d)) :
    exitCodeOf d = 0 := by
  unfold run_job at hrun
  split at hrun
  · rename_i heq
    rw [hjob] at heq
    cases heq
  · rename_i jc' heq
    split at hrun
    rename_i fs3 jr ev cl heq2
    split at hrun
    · simp at hrun
    · rename_i u heq3
      by_cases hec : exitCodeOf jr = 0
      · rw [if_neg (by simpa using hec)] at hrun
        have h2 : jr = d := by
          injection hrun with ha hb
          injection hb
        rw [← h2]
        exact hec
      · rw [if_pos (by simpa using hec), if_pos rfl] at hrun
        cases cl with
        | none => simp at hrun
        | some cmd => simp at hrun

/-- Witness for C2: a successful job in strict mode is returned with
exit code zero. -/
theorem C2_strict_mode_raises_not_returns_witness : exitCodeOf dC2w = 0 :=
  C2_strict_mode_raises_not_returns okWorld initRegistry basePE fsJ1 "/w"
    planC2 "j1" jobC2 fsJ1 dC2w rfl rfl

/-- Claim C3 (counterexample): a string command is *not* passed to the
executor as-is: `run_job` splits it on whitespace and template-
substitutes each token, and it does so even though the job's shell flag
is false (no eligibility check ties string commands to `shell=True`).
Here the string command `echo $V x` reaches the executor as the token
list `["echo", "1", "x"]`. -/
theorem C3_string_command_not_as_is :
    resultCommand (run_job (mkWorldC3 (RunOutcome.completed 0 "" ""))
        initRegistry basePE fsJ1 "/w" (mkPlanC3 "echo $V x" false) "j1" false).2
      = some (DVal.list ["echo", "1", "x"])
    ∧ ["echo", "1", "x"] ≠ ["echo $V x"] := ⟨rfl, by decide⟩

/-- Claim C3 (amended): for every shell-string command `s`, shell flag
`b` and executor outcome, the command handed to the executor (and
recorded in the result) is `s` split on whitespace with each token
template-substituted against the final resolved variable set. -/
theorem C3_string_command_split_and_substituted
    (o : RunOutcome) (s : String) (b : Bool) :
    resultCommand (run_job (mkWorldC3 o) initRegistry basePE fsJ1 "/w"
        (mkPlanC3 s b) "j1" false).2
      = some (DVal.list ((pySplit s).map (fun t => safe_substitute t envFinalC3))) := by
  cases o with
  | completed rc out err =>
    cases rc with
    | ofNat n =>
      cases n with
      | zero => rfl
      | succ m => rfl
    | negSucc n => rfl
  | timedOut out err => rfl
  | raised msg => rfl

/-- One step of the registry scan. -/
theorem firstFunctorMatch_cons (n : String) (f : String → Option NoterAttr)
    (rest : Registry) (name : String) :
    firstFunctorMatch ((n, f) :: rest) name
      = match f name with
        | some v => some v
        | none => firstFunctorMatch rest name := rfl

/-- Claim C4 (counterexample): lookup does not consult registered
factories first.  The builtin finder is pre-registered under
`__default__` and shadows a later-registered factory: after registering
a functor that resolves `FileNotifier` to a custom value, `find_noter`
still returns the builtin `FileNotifier`. -/
theorem C4_builtin_shadows_registered :
    add_lookup_functor initRegistry "custom" customFinder = Except.ok regWithCustom
    ∧ customFinder "FileNotifier" = some (NoterAttr.custom "mine")
    ∧ find_noter regWithCustom "FileNotifier" = Except.ok NoterAttr.fileNotifier
    ∧ NoterAttr.fileNotifier ≠ NoterAttr.custom "mine" :=
  ⟨rfl, rfl, rfl, by decide⟩

/-- Claim C4 (amended): `find_noter` consults the *builtin* table first
(it is pre-registered at construction), then the explicitly registered
factories in registration order, returning the first non-null match,
and raises `KeyError` only if none match. -/
theorem C4_lookup_order (regs : Registry) (name : String) :
    find_noter (initRegistry ++ regs) name
      = match findBuiltinNoter name with
        | some v => Except.ok v
        | none =>
          match firstFunctorMatch regs name with
          | some v => Except.ok v
          | none => Except.error (PyExc.keyError name) := by
  cases h : findBuiltinNoter name with
  | some v => simp [find_noter, initRegistry, firstFunctorMatch, h]
  | none =>
    simp only [find_noter, initRegistry, List.cons_append, List.nil_append]
    rw [firstFunctorMatch_cons, h]

/-- Claim C5 (counterexample): when the process exits non-zero with an
*empty* captured stderr, the error message is the empty string, not
`"unknown"`: the `dict.get('stderr', 'unknown')` default is dead because
the `stderr` key was set on the previous line. -/
theorem C5_empty_stderr_not_unknown :
    dGet (simple_run_command (RunOutcome.completed 1 "" "") "/w" ["x"]) "error"
      = some (DVal.str "")
    ∧ DVal.str "" ≠ DVal.str "unknown" := ⟨rfl, by decide⟩

/-- Claim C5 (amended): a completed process with non-zero exit code
yields status `failed` with the error message equal to the captured
standard error — including when that capture is empty. -/
theorem C5_failed_error_is_stderr (rc : Int) (out err cwd : String)
    (cmd : List String) (h : rc ≠ 0) :
    dGet (simple_run_command (RunOutcome.completed rc out err) cwd cmd) "error"
      = some (DVal.str err)
    ∧ dGet (simple_run_command (RunOutcome.completed rc out err) cwd cmd) "status"
      = some (DVal.str "failed") := by
  constructor
  · simp only [simple_run_command]
    rw [if_pos ⟨h, rfl⟩]
    rfl
  · simp only [simple_run_command]
    rw [if_pos ⟨h, rfl⟩]
    simp [dGet, dSet, alookup, if_neg h]

/-- Witness for C5. -/
theorem C5_failed_error_is_stderr_witness :
    dGet (simple_run_command (RunOutcome.completed 1 "out" "bad") "/w" ["x"]) "error"
      = some (DVal.str "bad") :=
  (C5_failed_error_is_stderr 1 "out" "bad" "/w" ["x"] (by decide)).1

/-- Claim C6: the repository's own tests load a plan whose job has an
`env` and a `command` but no `note` key and expect the load to succeed;
the pydantic model, however, declares `note: str` without a default, so
the load fails with a missing-field error.  Adding the `note` field
makes the same job validate. -/
theorem C6_note_field_required :
    parseTaskPlan c6RawPlan = Except.error "field required: note"
    ∧ parseTaskJob (("note", RawVal.rstr "test_file") :: c6RawJob)
      = Except.ok ⟨"nonexistent_env", "test_file", PyCmd.list ["echo", "test"],
          300, false⟩ := ⟨rfl, rfl⟩

/-- Claim C7: environment variables are resolved strictly in declaration
order against the variables resolved so far; `{A: "1", B: "$A-2"}`
resolves `B` to `1-2`, while the reverse declaration order leaves `B`
as the literal `$A-2` (assuming the inherited environment defines no
`A`), and unknown references are left untouched rather than erroring. -/
theorem C7_declaration_order (w : World) (base : EnvMap)
    (hA : alookup base "A" = none) :
    envLook (prepare_environment_variables w base "j" envAB) "A" = some "1"
    ∧ envLook (prepare_environment_variables w base "j" envAB) "B" = some "1-2"
    ∧ envLook (prepare_environment_variables w base "j" envBA) "B" = some "$A-2"
    ∧ envLook (prepare_environment_variables w base "j" envBA) "A" = some "1" := by
  have h1 : alookup (("OX_TASK_JOB_NAME", "j") :: base) "A" = none := by
    rw [alookup_cons, if_neg (by decide)]
    exact hA
  have h2 : safe_substitute "$A-2" (("OX_TASK_JOB_NAME", "j") :: base) = "$A-2" := by
    show String.mk (substF (("OX_TASK_JOB_NAME", "j") :: base) 5 ['$', 'A', '-', '2'])
      = "$A-2"
    rw [substF_dollarA2, h1]
  refine ⟨rfl, rfl, ?_, rfl⟩
  have hred : envLook (prepare_environment_variables w base "j" envBA) "B"
      = alookup (("A", "1") ::
          ("B", safe_substitute "$A-2" (("OX_TASK_JOB_NAME", "j") :: base)) ::
          ("OX_TASK_JOB_NAME", "j") :: base) "B" := rfl
  rw [hred, h2]
  rfl

/-- Witness for C7: the empty inherited environment. -/
theorem C7_declaration_order_witness :
    envLook (prepare_environment_variables okWorld [] "j" envBA) "B" = some "$A-2" :=
  (C7_declaration_order okWorld [] rfl).2.2.1

/-- Claim C8: `setup_job_environment` consults the task plan only when
the sandbox directory does not yet exist, and it creates the directory
*before* the environment-existence check: a first call with a missing
environment raises `ValueError` but leaves the new directory in the
filesystem, and any later call (directory now existing) returns the
sandbox path without error and with a result independent of the plan. -/
theorem C8_setup_env_check_only_on_creation (w : World) (fs : List String)
    (wd jn : String) (plan : TaskPlan) (en : String) :
    (fs.contains (wd ++ "/" ++ jn) = false → alookup plan.envs en = none →
      setup_job_environment w fs wd jn plan en
        = ((wd ++ "/" ++ jn) :: fs, Except.error (PyExc.valueError
            ("Environment " ++ sq ++ en ++ sq ++ " not found in task plan"))))
    ∧ (fs.contains (wd ++ "/" ++ jn) = true →
      setup_job_environment w fs wd jn plan en = (fs, Except.ok (wd ++ "/" ++ jn))) := by
  constructor
  · intro hc he
    have hc2 : (wd ++ "/" ++ jn) ∉ fs := by simpa using hc
    simp [setup_job_environment, hc2, he]
  · intro hc
    have hc2 : (wd ++ "/" ++ jn) ∈ fs := by simpa using hc
    simp [setup_job_environment, hc2]

/-- Witness for C8: both calls on a concrete empty plan. -/
theorem C8_setup_env_check_only_on_creation_witness :
    setup_job_environment okWorld [] "/w" "j" ⟨[], [], []⟩ "e"
      = (["/w/j"], Except.error (PyExc.valueError
          ("Environment " ++ sq ++ "e" ++ sq ++ " not found in task plan")))
    ∧ setup_job_environment okWorld ["/w/j"] "/w" "j" ⟨[], [], []⟩ "e"
      = (["/w/j"], Except.ok "/w/j") :=
  ⟨(C8_setup_env_check_only_on_creation okWorld [] "/w" "j" ⟨[], [], []⟩ "e").1
      (by decide) rfl,
   (C8_setup_env_check_only_on_creation okWorld ["/w/j"] "/w" "j" ⟨[], [], []⟩ "e").2
      (by decide)⟩

/-- Claim C9: a backtick variable whose inner shell command exits
non-zero produces no value at all: `run_shell_command` re-raises by
default, the `CalledProcessError` is caught at the `run_job` boundary,
and the job surfaces as an Error result whose recorded command is empty
(the job's own command never reached the executor, whose outcome the
result does not depend on). -/
theorem C9_backtick_failure_aborts_job (rc : Int) (out err : String)
    (hrc : rc ≠ 0) :
    run_job (mkBadWorld rc out err) initRegistry basePE fsJ1 "/w" planC9 "j1" false
      = (fsJ1, Except.ok (exceptDict
          (PyExc.calledProcessError (PyCmd.str "badcmd") rc))) := by
  cases rc with
  | ofNat n =>
    cases n with
    | zero => exact absurd rfl hrc
    | succ m => rfl
  | negSucc n => rfl

/-- Witness for C9: the shell command fails with exit code 1. -/
theorem C9_backtick_failure_aborts_job_witness :
    run_job (mkBadWorld 1 "" "oops") initRegistry basePE fsJ1 "/w" planC9 "j1" false
      = (fsJ1, Except.ok (exceptDict
          (PyExc.calledProcessError (PyCmd.str "badcmd") 1))) :=
  C9_backtick_failure_aborts_job 1 "" "oops" (by decide)

/-- Claim C10 (as stated): `shorten_msg` returns `msg` unchanged exactly
when `msg` is within both limits.  This is false: truncation can append
`...` and thereby reconstruct a `msg` that itself ends in `...`.  Here
`"ab..."` with `max_len = 2` comes back unchanged although it has five
characters. -/
theorem C10_shorten_msg_claim_false :
    shorten_msg ['a', 'b', '.', '.', '.'] 2 6 = ['a', 'b', '.', '.', '.']
    ∧ ¬ (['a', 'b', '.', '.', '.'] : List Char).length ≤ 2 := by
  decide

/-- Claim C10 (amended): `shorten_msg` returns `msg` unchanged whenever
`msg` is at most `max_len` characters and at most `max_lines` lines;
otherwise it returns the prefix of `msg` obtained by truncating first to
`max_len` characters and then to `max_lines` lines, with the three
characters `...` appended (a value that can still coincide with `msg`,
which is why the original "exactly when" fails). -/
theorem C10_shorten_msg_truncation (msg : List Char) (L N : Nat) :
    ((msg.length ≤ L ∧ numLines msg ≤ N) → shorten_msg msg L N = msg)
    ∧ (¬ (msg.length ≤ L ∧ numLines msg ≤ N) →
        shorten_msg msg L N = joinNL ((splitNL (msg.take L)).take N) ++ ['.', '.', '.']
        ∧ ∃ r, joinNL ((splitNL (msg.take L)).take N) ++ r = msg) := by
  constructor
  · rintro ⟨hL, hN⟩
    by_cases hm : msg = []
    · subst hm
      cases N with
      | zero => simp [shorten_msg, splitNL, joinNL]
      | succ n => simp [shorten_msg, splitNL, joinNL]
    · have hN' : (splitNL msg).length ≤ N := by
        rw [numLines, if_neg hm] at hN
        exact hN
      simp [shorten_msg, List.take_of_length_le hL, List.take_of_length_le hN',
        joinNL_splitNL]
  · intro h
    have hne : joinNL ((splitNL (msg.take L)).take N) ≠ msg := by
      by_cases hL : msg.length ≤ L
      · have hmN : ¬ numLines msg ≤ N := fun hN => h ⟨hL, hN⟩
        have hm : msg ≠ [] := by
          intro hh
          subst hh
          simp [numLines] at hmN
        have hNlt : N < (splitNL msg).length := by
          rw [numLines, if_neg hm] at hmN
          omega
        have h1 : msg.take L = msg := List.take_of_length_le hL
        rw [h1]
        have hlt := joinNL_take_length_lt (splitNL msg) N hNlt
          (by rw [joinNL_splitNL]; exact hm)
        rw [joinNL_splitNL] at hlt
        intro he
        have := congrArg List.length he
        omega
      · have hlen : (msg.take L).length = L := by
          rw [List.length_take]
          omega
        have hle := joinNL_take_length_le (splitNL (msg.take L)) N
        rw [joinNL_splitNL] at hle
        intro he
        have := congrArg List.length he
        omega
    constructor
    · simp only [shorten_msg]
      rw [if_neg hne]
    · obtain ⟨r1, hr1⟩ := joinNL_take_append (splitNL (msg.take L)) N
      rw [joinNL_splitNL] at hr1
      refine ⟨r1 ++ msg.drop L, ?_⟩
      rw [← List.append_assoc, hr1, List.take_append_drop]

/-- Witness for C10: a message of three lines truncated to two lines. -/
theorem C10_shorten_msg_truncation_witness :
    shorten_msg ['a', '\n', 'b', '\n', 'c'] 10 2 = ['a', '\n', 'b', '.', '.', '.'] := by
  have h := (C10_shorten_msg_truncation ['a', '\n', 'b', '\n', 'c'] 10 2).2 (by decide)
  exact h.1.trans (by decide)

end OxTask
